import Mathlib

set_option maxHeartbeats 1000000

/-!
Shallow embedding of the wallet-monitor core (src/src/wallet_monitor.rs):
the swap-event decoder, the position ledger, the alert-dedup gate, the
mark-price propagator and the periodic snapshot pruning task.

Modelling conventions: machine floats (f64) are modelled as exact
rationals; u64 quantities as naturals with explicit saturation at
2 ^ 64 - 1 (Nat subtraction already saturates at 0, matching
saturating_sub); the HashMap of holdings as an association list with
HashMap lookup/insert/remove semantics; the HashSet of alerted mints as
a duplicate-free list.  The outcome of the external notifier call is an
explicit boolean parameter sendOk; the Rust functions' logging is pure
observation and is dropped.
-/

def TOKEN_DECIMALS : Nat := 6

def SOL_DECIMALS : Nat := 9

def MIN_HOLDING_AMOUNT : Nat := 10000

def U64_MAX : Nat := 2 ^ 64 - 1

/-- u64::saturating_add. -/
def satAdd (a b : Nat) : Nat := min (a + b) U64_MAX

/-- The token decimal scale 10^6 used to turn raw amounts into display amounts. -/
def tokenScale : ℚ := 10 ^ TOKEN_DECIMALS

/-- The SOL decimal scale 10^9 (lamports per SOL). -/
def solScale : ℚ := 10 ^ SOL_DECIMALS

/-- display(raw): the raw amount divided by the token decimal scale. -/
def displayAmount (raw : Nat) : ℚ := (raw : ℚ) / tokenScale

/-- Truncation of a rational toward zero, as Rust's `as` cast from f64 does
before clamping to the integer type's range. -/
def truncRat (q : ℚ) : Int := q.num.sign * ((q.num.natAbs / q.den : Nat) : Int)

/-- Saturation of an integer into the i32 range, the clamping part of
Rust's `as i32` cast from f64. -/
def i32clamp (n : Int) : Int := max (-(2 ^ 31)) (min (2 ^ 31 - 1) n)

/-- struct TokenHolding (wallet_monitor.rs:110-116). -/
structure TokenHolding where
  amount : Nat
  mint : String
  total_cost : ℚ
  current_price : ℚ
deriving DecidableEq, Repr

/-- TokenHolding::new (wallet_monitor.rs:119-127). -/
def TokenHolding.new (mint : String) (amount : Nat) (price : ℚ) : TokenHolding :=
  { amount := amount
    mint := mint
    total_cost := displayAmount amount * price
    current_price := price }

/-- TokenHolding::avg_price (wallet_monitor.rs:129-136). -/
def TokenHolding.avg_price (h : TokenHolding) : ℚ :=
  if h.amount = 0 then 0 else h.total_cost / displayAmount h.amount

/-- TokenHolding::price_change_percentage (wallet_monitor.rs:138-144):
`((current_price - avg_price) / avg_price * 100.0) as i32`, 0 when the
average price is zero. -/
def TokenHolding.price_change_percentage (h : TokenHolding) : Int :=
  if h.avg_price = 0 then 0
  else i32clamp (truncRat ((h.current_price - h.avg_price) / h.avg_price * 100))

/-- The ledger map (HashMap<String, TokenHolding>) as an association list. -/
abbrev Holdings := List (String × TokenHolding)

/-- HashMap::get. -/
def hLookup (l : Holdings) (k : String) : Option TokenHolding :=
  match l with
  | [] => none
  | p :: rest => if p.1 = k then some p.2 else hLookup rest k

/-- HashMap insertion (also the net effect of entry().or_insert_with plus
in-place mutation): replace the binding if the key is present, else append. -/
def hInsert (l : Holdings) (k : String) (v : TokenHolding) : Holdings :=
  match l with
  | [] => [(k, v)]
  | p :: rest => if p.1 = k then (k, v) :: rest else p :: hInsert rest k v

/-- HashMap::remove. -/
def hRemove (l : Holdings) (k : String) : Holdings :=
  match l with
  | [] => []
  | p :: rest => if p.1 = k then hRemove rest k else p :: hRemove rest k

/-- The alerted-mints HashSet<String> as a duplicate-free list. -/
abbrev AlertedSet := List String

/-- HashSet::contains. -/
def sContains (s : AlertedSet) (m : String) : Bool :=
  match s with
  | [] => false
  | x :: rest => if x = m then true else sContains rest m

/-- HashSet::insert. -/
def sInsert (s : AlertedSet) (m : String) : AlertedSet :=
  if sContains s m then s else m :: s

/-- HashSet::remove. -/
def sRemove (s : AlertedSet) (m : String) : AlertedSet :=
  match s with
  | [] => []
  | x :: rest => if x = m then sRemove rest m else x :: sRemove rest m

theorem hLookup_hInsert_self (l : Holdings) (k : String) (v : TokenHolding) :
    hLookup (hInsert l k v) k = some v := by
  induction l with
  | nil => simp [hInsert, hLookup]
  | cons p rest ih =>
    by_cases hpk : p.1 = k
    · simp [hInsert, hLookup, hpk]
    · simp [hInsert, hLookup, hpk, ih]

theorem hLookup_hInsert_ne (l : Holdings) (k q : String) (v : TokenHolding)
    (hne : q ≠ k) : hLookup (hInsert l k v) q = hLookup l q := by
  have hkq : k ≠ q := Ne.symm hne
  induction l with
  | nil => simp [hInsert, hLookup, hkq]
  | cons p rest ih =>
    by_cases hpk : p.1 = k
    · have hpq : p.1 ≠ q := by rw [hpk]; exact hkq
      simp [hInsert, hLookup, hpk, hkq, hpq]
    · simp only [hInsert, hpk, if_neg, hLookup]
      rw [ih]

theorem hLookup_hRemove_self (l : Holdings) (k : String) :
    hLookup (hRemove l k) k = none := by
  induction l with
  | nil => simp [hRemove, hLookup]
  | cons p rest ih =>
    by_cases hpk : p.1 = k
    · simp [hRemove, hpk, ih]
    · simp [hRemove, hLookup, hpk, ih]

theorem hLookup_hRemove_ne (l : Holdings) (k q : String) (hne : q ≠ k) :
    hLookup (hRemove l k) q = hLookup l q := by
  have hkq : k ≠ q := Ne.symm hne
  induction l with
  | nil => simp [hRemove]
  | cons p rest ih =>
    by_cases hpk : p.1 = k
    · have hpq : p.1 ≠ q := by rw [hpk]; exact hkq
      simp [hRemove, hLookup, hpk, hpq, hkq, ih]
    · simp only [hRemove, hpk, if_neg, hLookup]
      rw [ih]

theorem sContains_sRemove_self (s : AlertedSet) (m : String) :
    sContains (sRemove s m) m = false := by
  induction s with
  | nil => simp [sRemove, sContains]
  | cons x rest ih =>
    by_cases hxm : x = m
    · simp [sRemove, hxm, ih]
    · simp [sRemove, sContains, hxm, ih]

theorem sContains_sInsert_self (s : AlertedSet) (m : String) :
    sContains (sInsert s m) m = true := by
  by_cases h : sContains s m
  · simp [sInsert, h]
  · simp [sInsert, h, sContains]

/-- Result of one run of check_and_send_alert (wallet_monitor.rs:252-289).
`attempted` records that send_alert was awaited (a network call);
`emitted` that the notifier reported success (an AlertFired was produced
and the mint was inserted into the set); `failed` that the Err branch was
taken (the function returned Err to its caller). -/
structure AlertOutcome where
  alerted : AlertedSet
  attempted : Bool
  emitted : Bool
  failed : Bool
deriving DecidableEq, Repr

/-- check_and_send_alert (wallet_monitor.rs:252-289).  The outcome of the
external send_alert call is the parameter sendOk; on success the mint is
inserted into the alerted set, on failure the set is left unchanged and
the Err is surfaced (then merely logged by every caller). -/
def check_and_send_alert (sendOk : Bool) (mint : String) (holding : TokenHolding)
    (alerted : AlertedSet) : AlertOutcome :=
  if 100 < holding.price_change_percentage then
    if sContains alerted mint then
      { alerted := alerted, attempted := false, emitted := false, failed := false }
    else if sendOk then
      { alerted := sInsert alerted mint, attempted := true, emitted := true, failed := false }
    else
      { alerted := alerted, attempted := true, emitted := false, failed := true }
  else
    { alerted := alerted, attempted := false, emitted := false, failed := false }

/-- The shared mutable state: the holdings map and the alerted-mints set. -/
structure LedgerState where
  holdings : Holdings
  alerted : AlertedSet
deriving DecidableEq, Repr

/-- Result of one ledger operation: the new shared state plus what the
alert gate did during the operation. -/
structure OpResult where
  state : LedgerState
  attempted : Bool
  emitted : Bool
deriving DecidableEq, Repr

/-- The buy-branch mutation of update_holdings (wallet_monitor.rs:298-304):
cost grows by display(token_amount) * price, amount by saturating_add, and
the mark price is overwritten. -/
def buyUpdatedHolding (old : TokenHolding) (token_amount : Nat) (price : ℚ) :
    TokenHolding :=
  { old with
    total_cost := old.total_cost + displayAmount token_amount * price
    amount := satAdd old.amount token_amount
    current_price := price }

/-- The sell-branch mutation of update_holdings (wallet_monitor.rs:317-321):
the cost-basis fraction token_amount / amount is NOT clamped, the amount is
reduced by saturating_sub (Nat subtraction), and the mark price is
overwritten. -/
def sellUpdatedHolding (old : TokenHolding) (token_amount : Nat) (price : ℚ) :
    TokenHolding :=
  { old with
    total_cost := old.total_cost * (1 - (token_amount : ℚ) / (old.amount : ℚ))
    amount := old.amount - token_amount
    current_price := price }

/-- update_holdings (wallet_monitor.rs:291-342).  Buy: or_insert a fresh
zero holding, apply the buy mutation, run the alert gate; no dust check.
Sell: no-op when the mint is absent; otherwise apply the sell mutation,
run the alert gate, then remove the position and its alerted entry when
the RAW amount is below MIN_HOLDING_AMOUNT. -/
def update_holdings (sendOk : Bool) (st : LedgerState) (mint : String)
    (is_buy : Bool) (token_amount : Nat) (price : ℚ) : OpResult :=
  if is_buy then
    let old := (hLookup st.holdings mint).getD (TokenHolding.new mint 0 price)
    let h := buyUpdatedHolding old token_amount price
    let out := check_and_send_alert sendOk mint h st.alerted
    { state := { holdings := hInsert st.holdings mint h, alerted := out.alerted }
      attempted := out.attempted, emitted := out.emitted }
  else
    match hLookup st.holdings mint with
    | none => { state := st, attempted := false, emitted := false }
    | some old =>
      let h := sellUpdatedHolding old token_amount price
      let out := check_and_send_alert sendOk mint h st.alerted
      if h.amount < MIN_HOLDING_AMOUNT then
        { state := { holdings := hRemove (hInsert st.holdings mint h) mint
                     alerted := sRemove out.alerted mint }
          attempted := out.attempted, emitted := out.emitted }
      else
        { state := { holdings := hInsert st.holdings mint h, alerted := out.alerted }
          attempted := out.attempted, emitted := out.emitted }

/-- update_price (wallet_monitor.rs:344-392).  Zero price: no-op.  Absent
mint: no-op.  Dust by the DISPLAY-unit check amount/10^6 < MIN_HOLDING_AMOUNT:
remove position and alerted entry and return early.  Otherwise overwrite the
mark price, run the alert gate, and re-test the same display-unit dust
predicate (computed from the unchanged amount, so this second branch cannot
fire after the early return). -/
def update_price (sendOk : Bool) (st : LedgerState) (mint : String) (price : ℚ) :
    OpResult :=
  if price = 0 then { state := st, attempted := false, emitted := false }
  else
    match hLookup st.holdings mint with
    | none => { state := st, attempted := false, emitted := false }
    | some holding =>
      if displayAmount holding.amount < (MIN_HOLDING_AMOUNT : ℚ) then
        { state := { holdings := hRemove st.holdings mint
                     alerted := sRemove st.alerted mint }
          attempted := false, emitted := false }
      else
        let h := { holding with current_price := price }
        let out := check_and_send_alert sendOk mint h st.alerted
        if displayAmount holding.amount < (MIN_HOLDING_AMOUNT : ℚ) then
          { state := { holdings := hRemove (hInsert st.holdings mint h) mint
                       alerted := sRemove out.alerted mint }
            attempted := out.attempted, emitted := out.emitted }
        else
          { state := { holdings := hInsert st.holdings mint h, alerted := out.alerted }
            attempted := out.attempted, emitted := out.emitted }

/-- The pruning part of print_holdings (wallet_monitor.rs:408-427): collect
every mint whose display amount is below MIN_HOLDING_AMOUNT, then remove
each from the holdings map and from the alerted set that was passed in. -/
def print_holdings_prune (h : Holdings) (a : AlertedSet) : Holdings × AlertedSet :=
  let to_remove :=
    (h.filter (fun p => decide (displayAmount p.2.amount < (MIN_HOLDING_AMOUNT : ℚ)))).map
      Prod.fst
  (to_remove.foldl hRemove h, to_remove.foldl sRemove a)

/-- One tick of the periodic snapshot task spawned by start_monitoring
(wallet_monitor.rs:474-496): the spawned task builds a WalletMonitor whose
holdings field is a clone of the shared Arc but whose alerted_mints is a
FRESH empty set (wallet_monitor.rs:481), then calls print_holdings.  So the
prune acts on the shared holdings together with an empty alerted set, and
the shared alerted set is left untouched. -/
def periodic_tick (st : LedgerState) : LedgerState :=
  { holdings := (print_holdings_prune st.holdings []).1
    alerted := st.alerted }

/-- A decoded swap event: the tuple returned by decode_program_data
(mint, user, is_buy, sol_amount, token_amount) with the spec's field
names. -/
structure SwapEvent where
  token_id : String
  trader_id : String
  is_buy : Bool
  quote_amount_raw : Nat
  base_amount_raw : Nat
deriving DecidableEq, Repr

/-- The byte slice [a, b) of a decoded payload. -/
def listSlice (l : List Nat) (a b : Nat) : List Nat := (l.drop a).take (b - a)

/-- u64::from_le_bytes on a little-endian byte list. -/
def leBytesToNat : List Nat → Nat
  | [] => 0
  | b :: rest => b + 256 * leBytesToNat rest

/-- The bitcoin base58 alphabet used by the bs58 crate. -/
def BASE58_ALPHABET : List Char :=
  String.toList "123456789ABCDEFGHJKLMNPQRSTUVWXYZabcdefghijkmnopqrstuvwxyz"

/-- Base-58 digits of a natural number, most significant first (empty for 0). -/
def base58Digits (n : Nat) : List Char :=
  if h : n = 0 then []
  else
    have : n / 58 < n := Nat.div_lt_self (Nat.pos_of_ne_zero h) (by norm_num)
    base58Digits (n / 58) ++ [BASE58_ALPHABET.getD (n % 58) '1']

/-- Count of leading zero bytes, each encoded as a leading '1'. -/
def countLeadingZeroBytes : List Nat → Nat
  | [] => 0
  | b :: rest => if b = 0 then countLeadingZeroBytes rest + 1 else 0

/-- Fold a big-endian byte list into a natural number. -/
def beBytesToNat (l : List Nat) : Nat := l.foldl (fun acc b => acc * 256 + b) 0

/-- bs58::encode(..).into_string(): one '1' per leading zero byte, then the
base-58 digits of the big-endian value of the bytes. -/
def bs58encode (bytes : List Nat) : String :=
  String.mk (List.replicate (countLeadingZeroBytes bytes) '1' ++
    base58Digits (beBytesToNat bytes))

/-- decode_program_data (wallet_monitor.rs:191-236).  The input is the
result of the base64 decode of the log payload: none when the base64
decode failed, some bytes otherwise.  Payloads shorter than 129 bytes are
rejected; otherwise the fields are read at fixed offsets: mint = base58 of
[8,40), sol_amount = u64 LE at [40,48), token_amount = u64 LE at [48,56),
is_buy = byte 56 nonzero, user = base58 of [57,89). -/
def decode_program_data (decoded : Option (List Nat)) : Option SwapEvent :=
  match decoded with
  | none => none
  | some d =>
    if d.length < 129 then none
    else
      some
        { token_id := bs58encode (listSlice d 8 40)
          trader_id := bs58encode (listSlice d 57 89)
          is_buy := (listSlice d 56 57).headD 0 ≠ 0
          quote_amount_raw := leBytesToNat (listSlice d 40 48)
          base_amount_raw := leBytesToNat (listSlice d 48 56) }

/-- calculate_price (wallet_monitor.rs:238-250): 0 when the token amount is
zero, else (sol / 10^9) / (tokens / 10^6). -/
def calculate_price (sol_amount token_amount : Nat) : ℚ :=
  if token_amount = 0 then 0
  else ((sol_amount : ℚ) / solScale) / ((token_amount : ℚ) / tokenScale)

/-- One ledger operation routed by the stream dispatcher: an own trade of
the watched wallet (update_holdings) or a third-party trade in a held token
(update_price). -/
inductive LedgerOp where
  | trade (mint : String) (is_buy : Bool) (token_amount : Nat) (price : ℚ)
  | mark (mint : String) (price : ℚ)
deriving DecidableEq, Repr

/-- Apply one ledger operation (all notifier sends succeeding). -/
def applyOp (st : LedgerState) : LedgerOp → OpResult
  | LedgerOp.trade mint is_buy token_amount price =>
      update_holdings true st mint is_buy token_amount price
  | LedgerOp.mark mint price => update_price true st mint price

/-- Run a list of ledger operations, counting how many AlertFired events
were produced. -/
def runOps (st : LedgerState) : List LedgerOp → LedgerState × Nat
  | [] => (st, 0)
  | op :: rest =>
    let r := applyOp st op
    let (st2, c) := runOps r.state rest
    (st2, (if r.emitted then 1 else 0) + c)

/-- Run the alert gate n times against the same holding, returning the
final alerted set and the number of AlertFired events produced. -/
def iterCheck (sendOk : Bool) (mint : String) (holding : TokenHolding) :
    Nat → AlertedSet → AlertedSet × Nat
  | 0, a => (a, 0)
  | n + 1, a =>
    let out := check_and_send_alert sendOk mint holding a
    let (a2, c) := iterCheck sendOk mint holding n out.alerted
    (a2, (if out.emitted then 1 else 0) + c)

/-- Events of one ledger operation, as seen by the two tokio mutexes and
the network: both locks are taken at the top of update_holdings
(wallet_monitor.rs:293-294), check_and_send_alert (and inside it the
send_alert network call) is awaited in the middle of the function body, and
the two guards are dropped only when the function returns. -/
inductive LockEvent where
  | acquireHoldings
  | acquireAlerted
  | sendAlertNet
  | releaseAlerted
  | releaseHoldings
deriving DecidableEq, Repr

/-- The event trace of one update_holdings call: lock both mutexes, await
the notifier network call whenever the gate attempts a send, unlock on
return (wallet_monitor.rs:291-342 together with 252-289). -/
def update_holdings_events (sendOk : Bool) (st : LedgerState) (mint : String)
    (is_buy : Bool) (token_amount : Nat) (price : ℚ) : List LockEvent :=
  [LockEvent.acquireHoldings, LockEvent.acquireAlerted] ++
    (if (update_holdings sendOk st mint is_buy token_amount price).attempted then
      [LockEvent.sendAlertNet] else []) ++
    [LockEvent.releaseAlerted, LockEvent.releaseHoldings]

/-- A trace holds the holdings lock across network I/O when a network send
event sits strictly between the acquisition and the release of the lock. -/
def lockHeldAcrossNetSend (evs : List LockEvent) : Prop :=
  ∃ l1 l2 l3, evs = l1 ++ [LockEvent.acquireHoldings] ++ l2 ++
    [LockEvent.releaseHoldings] ++ l3 ∧ LockEvent.sendAlertNet ∈ l2

/-! Helper lemmas. -/

set_option maxRecDepth 8000

theorem truncRat_eq_num (q : ℚ) (h : q.den = 1) : truncRat q = q.num := by
  unfold truncRat
  rw [h]
  simp [Int.sign_mul_abs]

theorem listSlice_take (d : List Nat) (a b n : ℕ) (h : b ≤ n) :
    listSlice (d.take n) a b = listSlice d a b := by
  unfold listSlice
  rw [List.drop_take, List.take_take]
  congr 1
  omega

theorem check_armed_above (sendOk : Bool) (mint : String) (h : TokenHolding)
    (a : AlertedSet) (h100 : 100 < h.price_change_percentage)
    (hnot : sContains a mint = false) :
    check_and_send_alert sendOk mint h a =
      if sendOk then
        { alerted := sInsert a mint, attempted := true, emitted := true, failed := false }
      else
        { alerted := a, attempted := true, emitted := false, failed := true } := by
  cases sendOk <;> simp [check_and_send_alert, h100, hnot]

theorem check_in_set (sendOk : Bool) (mint : String) (h : TokenHolding)
    (a : AlertedSet) (hin : sContains a mint = true) :
    check_and_send_alert sendOk mint h a =
      { alerted := a, attempted := false, emitted := false, failed := false } := by
  by_cases h100 : 100 < h.price_change_percentage <;>
    simp [check_and_send_alert, h100, hin]

theorem check_below (sendOk : Bool) (mint : String) (h : TokenHolding)
    (a : AlertedSet) (hle : h.price_change_percentage ≤ 100) :
    check_and_send_alert sendOk mint h a =
      { alerted := a, attempted := false, emitted := false, failed := false } := by
  simp [check_and_send_alert, Int.not_lt.2 hle]

theorem iterCheck_in_set (mint : String) (h : TokenHolding) (n : Nat)
    (a : AlertedSet) (hin : sContains a mint = true) :
    iterCheck true mint h n a = (a, 0) := by
  induction n with
  | zero => simp [iterCheck]
  | succ m ih => simp [iterCheck, check_in_set true mint h a hin, ih]

/-- The ledger-operation trace of the exactly-once scenario: open a
position, push the mark price above the alert threshold three times,
close the position with a full sell, reopen it, and push the price above
the threshold once more. -/
def scenarioOps : List LedgerOp :=
  [LedgerOp.trade "M" true 20000000000 1,
   LedgerOp.mark "M" 3,
   LedgerOp.mark "M" 3,
   LedgerOp.mark "M" 3,
   LedgerOp.trade "M" false 20000000000 3,
   LedgerOp.trade "M" true 20000000000 1,
   LedgerOp.mark "M" 3]

/-- The position after buying 20 000 display units at price 1. -/
def holdA : TokenHolding := ⟨20000000000, "M", 20000, 1⟩

/-- The same position after its mark price moved to 3 (gain 200 %). -/
def holdA3 : TokenHolding := ⟨20000000000, "M", 20000, 3⟩

theorem scenStep1 : applyOp ⟨[], []⟩ (LedgerOp.trade "M" true 20000000000 1)
    = ⟨⟨[("M", holdA)], []⟩, false, false⟩ := by
  norm_num [applyOp, update_holdings, hLookup, buyUpdatedHolding, TokenHolding.new,
    check_and_send_alert, TokenHolding.price_change_percentage, TokenHolding.avg_price,
    displayAmount, tokenScale, TOKEN_DECIMALS, satAdd, U64_MAX, hInsert, sContains,
    truncRat_eq_num, i32clamp, holdA]

theorem scenStep2 : applyOp ⟨[("M", holdA)], []⟩ (LedgerOp.mark "M" 3)
    = ⟨⟨[("M", holdA3)], ["M"]⟩, true, true⟩ := by
  norm_num [applyOp, update_price, hLookup, check_and_send_alert,
    TokenHolding.price_change_percentage, TokenHolding.avg_price,
    displayAmount, tokenScale, TOKEN_DECIMALS, MIN_HOLDING_AMOUNT, hInsert, hRemove,
    sContains, sInsert, sRemove, truncRat_eq_num, i32clamp, holdA, holdA3]

theorem scenStep3 : applyOp ⟨[("M", holdA3)], ["M"]⟩ (LedgerOp.mark "M" 3)
    = ⟨⟨[("M", holdA3)], ["M"]⟩, false, false⟩ := by
  norm_num [applyOp, update_price, hLookup, check_and_send_alert,
    TokenHolding.price_change_percentage, TokenHolding.avg_price,
    displayAmount, tokenScale, TOKEN_DECIMALS, MIN_HOLDING_AMOUNT, hInsert, hRemove,
    sContains, sInsert, sRemove, truncRat_eq_num, i32clamp, holdA3]

theorem scenStep5 : applyOp ⟨[("M", holdA3)], ["M"]⟩
    (LedgerOp.trade "M" false 20000000000 3) = ⟨⟨[], []⟩, false, false⟩ := by
  norm_num [applyOp, update_holdings, hLookup, sellUpdatedHolding,
    check_and_send_alert, TokenHolding.price_change_percentage, TokenHolding.avg_price,
    displayAmount, tokenScale, TOKEN_DECIMALS, MIN_HOLDING_AMOUNT, hInsert, hRemove,
    sContains, sInsert, sRemove, truncRat_eq_num, i32clamp, holdA3]

theorem decode_accepts (d : List Nat) (h : 129 ≤ d.length) :
    decode_program_data (some d) = some
      { token_id := bs58encode (listSlice d 8 40)
        trader_id := bs58encode (listSlice d 57 89)
        is_buy := (listSlice d 56 57).headD 0 ≠ 0
        quote_amount_raw := leBytesToNat (listSlice d 40 48)
        base_amount_raw := leBytesToNat (listSlice d 48 56) } := by
  simp [decode_program_data, Nat.not_lt.2 h]

/-! Claim theorems. -/

/-- Claim C7: for every decoded event the derived price equals
(quote_amount_raw / 10^9) / (base_amount_raw / 10^6), the price is 0
whenever base_amount_raw = 0, and quote_amount_raw = 1 000 000 000 with
base_amount_raw = 2 000 000 yields price 1/2. -/
theorem calculate_price_spec :
    (∀ q b : Nat, b ≠ 0 →
      calculate_price q b = ((q : ℚ) / 10 ^ 9) / ((b : ℚ) / 10 ^ 6)) ∧
    (∀ q : Nat, calculate_price q 0 = 0) ∧
    calculate_price 1000000000 2000000 = 1 / 2 := by
  refine ⟨?_, ?_, ?_⟩
  · intro q b hb
    simp [calculate_price, hb, solScale, tokenScale, SOL_DECIMALS, TOKEN_DECIMALS]
  · intro q
    simp [calculate_price]
  · norm_num [calculate_price, solScale, tokenScale, SOL_DECIMALS, TOKEN_DECIMALS]

/-- Witness for C7 at quote 1 000 000 000, base 2 000 000. -/
theorem calculate_price_spec_witness :
    (2000000 : Nat) ≠ 0 ∧
    calculate_price 1000000000 2000000
      = ((1000000000 : ℚ) / 10 ^ 9) / ((2000000 : ℚ) / 10 ^ 6) :=
  ⟨by norm_num, calculate_price_spec.1 1000000000 2000000 (by norm_num)⟩

/-- Claim C6: the decoder is total: a failed base64 decode or a decoded
length below 129 bytes yields none without any error; otherwise it yields
the event read at the fixed offsets (token id = base58 of bytes [8,40),
quote u64 LE at [40,48), base u64 LE at [48,56), is_buy = byte 56 nonzero,
trader id = base58 of bytes [57,89)); and for accepted payloads the byte
values beyond offset 89 never affect the result. -/
theorem decoder_totality_layout :
    decode_program_data none = none ∧
    (∀ d : List Nat, d.length < 129 → decode_program_data (some d) = none) ∧
    (∀ d : List Nat, 129 ≤ d.length →
      decode_program_data (some d) = some
        { token_id := bs58encode (listSlice d 8 40)
          trader_id := bs58encode (listSlice d 57 89)
          is_buy := (listSlice d 56 57).headD 0 ≠ 0
          quote_amount_raw := leBytesToNat (listSlice d 40 48)
          base_amount_raw := leBytesToNat (listSlice d 48 56) }) ∧
    (∀ d1 d2 : List Nat, 129 ≤ d1.length → 129 ≤ d2.length →
      d1.take 89 = d2.take 89 →
      decode_program_data (some d1) = decode_program_data (some d2)) := by
  refine ⟨rfl, ?_, decode_accepts, ?_⟩
  · intro d h
    simp [decode_program_data, h]
  · intro d1 d2 h1 h2 ht
    have hs : ∀ a b : Nat, b ≤ 89 → listSlice d1 a b = listSlice d2 a b := by
      intro a b hb
      rw [← listSlice_take d1 a b 89 hb, ht, listSlice_take d2 a b 89 hb]
    rw [decode_accepts d1 h1, decode_accepts d2 h2,
      hs 8 40 (by norm_num), hs 57 89 (by norm_num), hs 56 57 (by norm_num),
      hs 40 48 (by norm_num), hs 48 56 (by norm_num)]

/-- Witness for C6: a 128-byte payload is rejected and a 129-byte payload
is accepted with the fields read at the fixed offsets. -/
theorem decoder_totality_layout_witness :
    ((List.replicate 128 (0 : Nat)).length < 129 ∧
      decode_program_data (some (List.replicate 128 (0 : Nat))) = none) ∧
    (129 ≤ (List.replicate 129 (7 : Nat)).length ∧
      decode_program_data (some (List.replicate 129 (7 : Nat))) = some
        { token_id := bs58encode (listSlice (List.replicate 129 (7 : Nat)) 8 40)
          trader_id := bs58encode (listSlice (List.replicate 129 (7 : Nat)) 57 89)
          is_buy := (listSlice (List.replicate 129 (7 : Nat)) 56 57).headD 0 ≠ 0
          quote_amount_raw := leBytesToNat (listSlice (List.replicate 129 (7 : Nat)) 40 48)
          base_amount_raw := leBytesToNat (listSlice (List.replicate 129 (7 : Nat)) 48 56) }) :=
  ⟨⟨by simp, decoder_totality_layout.2.1 (List.replicate 128 0) (by simp)⟩,
   ⟨by simp, decoder_totality_layout.2.2.1 (List.replicate 129 7) (by simp)⟩⟩

/-- Claim C4 (code-bug evaluation): the sell branch computes
sell_ratio = base_amount_raw / raw_amount WITHOUT clamping it to [0,1], so
an oversell drives accumulated_cost negative (here to -1) in the updated
holding; the position is then fully closed only because the saturating
subtraction leaves raw_amount = 0, which the dust check removes together
with its alerted entry. -/
theorem oversell_unclamped_negative_cost :
    (sellUpdatedHolding ⟨20000, "M", 1, 1⟩ 40000 1).total_cost = -1 ∧
    (sellUpdatedHolding ⟨20000, "M", 1, 1⟩ 40000 1).total_cost < 0 ∧
    (sellUpdatedHolding ⟨20000, "M", 1, 1⟩ 40000 1).amount = 0 ∧
    (update_holdings true ⟨[("M", ⟨20000, "M", 1, 1⟩)], []⟩ "M" false 40000 1).state
      = ⟨[], []⟩ := by
  refine ⟨?_, ?_, ?_, ?_⟩ <;>
    norm_num [sellUpdatedHolding, update_holdings, hLookup, check_and_send_alert,
      TokenHolding.price_change_percentage, TokenHolding.avg_price, displayAmount,
      tokenScale, TOKEN_DECIMALS, MIN_HOLDING_AMOUNT, hInsert, hRemove, sContains,
      sRemove, truncRat_eq_num, i32clamp]

/-- Counterexample to claim C3 as stated: a sell that leaves the position
with display amount 1/2 — far below the dust threshold of 10000 display
units — does NOT remove the position, because the sell branch compares the
RAW amount (500000) against MIN_HOLDING_AMOUNT instead of the display
amount. -/
theorem sell_dust_check_not_display_units :
    displayAmount 500000 < (MIN_HOLDING_AMOUNT : ℚ) ∧
    hLookup (update_holdings true ⟨[("M", ⟨1000000, "M", 1, 1⟩)], []⟩
        "M" false 500000 1).state.holdings "M"
      = some ⟨500000, "M", 1 / 2, 1⟩ := by
  constructor
  · norm_num [displayAmount, tokenScale, TOKEN_DECIMALS, MIN_HOLDING_AMOUNT]
  · norm_num [update_holdings, hLookup, sellUpdatedHolding, check_and_send_alert,
      TokenHolding.price_change_percentage, TokenHolding.avg_price, displayAmount,
      tokenScale, TOKEN_DECIMALS, MIN_HOLDING_AMOUNT, hInsert, hRemove, sContains,
      sRemove, truncRat_eq_num, i32clamp]

/-- Claim C3 as amended: the three update paths do NOT share one
display-unit dust predicate.  After a sell the position is removed (and
its alerted entry cleared) iff the new RAW amount is below
MIN_HOLDING_AMOUNT; the buy branch never removes a position; a mark-price
update (nonzero price, existing position) removes the position (and its
alerted entry) iff the DISPLAY amount raw/10^6 is below
MIN_HOLDING_AMOUNT. -/
theorem dust_removal_per_path (sendOk : Bool) (st : LedgerState) (mint : String)
    (old : TokenHolding) (amt : Nat) (price : ℚ)
    (hlk : hLookup st.holdings mint = some old) :
    ((hLookup (update_holdings sendOk st mint false amt price).state.holdings mint = none
        ↔ old.amount - amt < MIN_HOLDING_AMOUNT) ∧
      (old.amount - amt < MIN_HOLDING_AMOUNT →
        sContains (update_holdings sendOk st mint false amt price).state.alerted mint
          = false)) ∧
    (∀ st2 : LedgerState, ∀ amt2 : Nat,
      hLookup (update_holdings sendOk st2 mint true amt2 price).state.holdings mint
        ≠ none) ∧
    (price ≠ 0 →
      ((hLookup (update_price sendOk st mint price).state.holdings mint = none
          ↔ displayAmount old.amount < (MIN_HOLDING_AMOUNT : ℚ)) ∧
        (displayAmount old.amount < (MIN_HOLDING_AMOUNT : ℚ) →
          sContains (update_price sendOk st mint price).state.alerted mint = false))) := by
  refine ⟨?_, ?_, ?_⟩
  · by_cases hdust :
      (sellUpdatedHolding old amt price).amount < MIN_HOLDING_AMOUNT
    · have hdust2 : old.amount - amt < MIN_HOLDING_AMOUNT := hdust
      simp [update_holdings, hlk, hdust, hdust2, hLookup_hRemove_self,
        sContains_sRemove_self]
    · have hdust2 : ¬ old.amount - amt < MIN_HOLDING_AMOUNT := hdust
      simp [update_holdings, hlk, hdust, hdust2, hLookup_hInsert_self]
  · intro st2 amt2
    simp [update_holdings, hLookup_hInsert_self]
  · intro hp
    by_cases hdust : displayAmount old.amount < (MIN_HOLDING_AMOUNT : ℚ)
    · simp [update_price, hp, hlk, hdust, hLookup_hRemove_self,
        sContains_sRemove_self]
    · simp [update_price, hp, hlk, hdust, hLookup_hInsert_self]

/-- Witness for the amended C3 at a concrete sell, buy and mark update. -/
theorem dust_removal_per_path_witness :
    (hLookup (update_holdings true ⟨[("M", ⟨1000000, "M", 1, 1⟩)], []⟩
        "M" false 500000 1).state.holdings "M" = none
      ↔ 1000000 - 500000 < MIN_HOLDING_AMOUNT) ∧
    hLookup (update_holdings true ⟨[("M", ⟨1000000, "M", 1, 1⟩)], []⟩
        "M" true 2000000 1).state.holdings "M" ≠ none ∧
    (hLookup (update_price true ⟨[("M", ⟨1000000, "M", 1, 1⟩)], []⟩
        "M" 1).state.holdings "M" = none
      ↔ displayAmount (1000000 : Nat) < (MIN_HOLDING_AMOUNT : ℚ)) :=
  ⟨(dust_removal_per_path true ⟨[("M", ⟨1000000, "M", 1, 1⟩)], []⟩ "M"
      ⟨1000000, "M", 1, 1⟩ 500000 1 (by simp [hLookup])).1.1,
   (dust_removal_per_path true ⟨[("M", ⟨1000000, "M", 1, 1⟩)], []⟩ "M"
      ⟨1000000, "M", 1, 1⟩ 500000 1 (by simp [hLookup])).2.1
     ⟨[("M", ⟨1000000, "M", 1, 1⟩)], []⟩ 2000000,
   ((dust_removal_per_path true ⟨[("M", ⟨1000000, "M", 1, 1⟩)], []⟩ "M"
      ⟨1000000, "M", 1, 1⟩ 500000 1 (by simp [hLookup])).2.2
     (by norm_num)).1⟩

/-- Claim C8: selling exactly half of a position's raw amount halves its
accumulated cost and its raw amount and leaves the average cost unchanged,
provided the remaining half is retained (not dust-removed). -/
theorem proportional_sell (sendOk : Bool) (st : LedgerState) (mint : String)
    (old : TokenHolding) (half : Nat) (price : ℚ)
    (hlk : hLookup st.holdings mint = some old)
    (hamt : old.amount = 2 * half)
    (hkeep : MIN_HOLDING_AMOUNT ≤ half) :
    hLookup (update_holdings sendOk st mint false half price).state.holdings mint
      = some (sellUpdatedHolding old half price) ∧
    (sellUpdatedHolding old half price).total_cost = old.total_cost / 2 ∧
    2 * (sellUpdatedHolding old half price).amount = old.amount ∧
    (sellUpdatedHolding old half price).avg_price = old.avg_price := by
  have hmin : 0 < MIN_HOLDING_AMOUNT := by norm_num [MIN_HOLDING_AMOUNT]
  have hhalf : half ≠ 0 := by omega
  have hhq : (half : ℚ) ≠ 0 := Nat.cast_ne_zero.2 hhalf
  have hamount : (sellUpdatedHolding old half price).amount = half := by
    simp only [sellUpdatedHolding]
    omega
  have hcost : (sellUpdatedHolding old half price).total_cost
      = old.total_cost / 2 := by
    simp only [sellUpdatedHolding]
    rw [hamt]
    push_cast
    field_simp
    ring
  have hoa : old.amount ≠ 0 := by omega
  have havg : (sellUpdatedHolding old half price).avg_price = old.avg_price := by
    unfold TokenHolding.avg_price
    rw [hamount, hcost, hamt]
    simp only [hhalf, hhalf, if_neg, displayAmount, tokenScale, TOKEN_DECIMALS]
    have h2 : ¬ (2 * half = 0) := by omega
    simp only [h2, if_neg]
    push_cast
    field_simp
  have hnd : ¬ ((sellUpdatedHolding old half price).amount < MIN_HOLDING_AMOUNT) := by
    rw [hamount]
    omega
  refine ⟨?_, hcost, ?_, havg⟩
  · simp [update_holdings, hlk, hnd, hLookup_hInsert_self]
  · rw [hamount, hamt]

/-- Witness for C8: a 40000-raw position with cost 4 sold by 20000 raw. -/
theorem proportional_sell_witness :
    hLookup (update_holdings true ⟨[("M", ⟨40000, "M", 4, 1⟩)], []⟩
        "M" false 20000 1).state.holdings "M"
      = some (sellUpdatedHolding ⟨40000, "M", 4, 1⟩ 20000 1) ∧
    (sellUpdatedHolding ⟨40000, "M", 4, 1⟩ 20000 1).total_cost = 4 / 2 ∧
    2 * (sellUpdatedHolding ⟨40000, "M", 4, 1⟩ 20000 1).amount = 40000 ∧
    (sellUpdatedHolding ⟨40000, "M", 4, 1⟩ 20000 1).avg_price
      = (⟨40000, "M", 4, 1⟩ : TokenHolding).avg_price :=
  proportional_sell true ⟨[("M", ⟨40000, "M", 4, 1⟩)], []⟩ "M"
    ⟨40000, "M", 4, 1⟩ 20000 1 (by simp [hLookup]) (by norm_num)
    (by norm_num [MIN_HOLDING_AMOUNT])

/-- Claim C10: a nonzero mark-price update on an existing position that is
at or above the display-unit dust threshold changes only that position's
mark price: its raw amount and accumulated cost are unchanged and every
other position in the ledger is unchanged. -/
theorem mark_price_update_frame (sendOk : Bool) (st : LedgerState) (mint : String)
    (price : ℚ) (old : TokenHolding) (hp : price ≠ 0)
    (hlk : hLookup st.holdings mint = some old)
    (hnd : ¬ displayAmount old.amount < (MIN_HOLDING_AMOUNT : ℚ)) :
    hLookup (update_price sendOk st mint price).state.holdings mint
      = some { old with current_price := price } ∧
    ({ old with current_price := price } : TokenHolding).amount = old.amount ∧
    ({ old with current_price := price } : TokenHolding).total_cost
      = old.total_cost ∧
    (∀ m, m ≠ mint →
      hLookup (update_price sendOk st mint price).state.holdings m
        = hLookup st.holdings m) := by
  refine ⟨?_, rfl, rfl, ?_⟩
  · simp [update_price, hp, hlk, hnd, hLookup_hInsert_self]
  · intro m hm
    simp [update_price, hp, hlk, hnd, hLookup_hInsert_ne _ _ _ _ hm]

/-- Witness for C10 at a concrete ledger with one position. -/
theorem mark_price_update_frame_witness :
    hLookup (update_price true ⟨[("M", ⟨20000000000, "M", 20000, 1⟩)], []⟩
        "M" 3).state.holdings "M"
      = some { (⟨20000000000, "M", 20000, 1⟩ : TokenHolding) with
                current_price := 3 } ∧
    hLookup (update_price true ⟨[("M", ⟨20000000000, "M", 20000, 1⟩)], []⟩
        "M" 3).state.holdings "X"
      = hLookup [("M", ⟨20000000000, "M", 20000, 1⟩)] "X" :=
  ⟨(mark_price_update_frame true ⟨[("M", ⟨20000000000, "M", 20000, 1⟩)], []⟩
      "M" 3 ⟨20000000000, "M", 20000, 1⟩ (by norm_num) (by simp [hLookup])
      (by norm_num [displayAmount, tokenScale, TOKEN_DECIMALS,
        MIN_HOLDING_AMOUNT])).1,
   (mark_price_update_frame true ⟨[("M", ⟨20000000000, "M", 20000, 1⟩)], []⟩
      "M" 3 ⟨20000000000, "M", 20000, 1⟩ (by norm_num) (by simp [hLookup])
      (by norm_num [displayAmount, tokenScale, TOKEN_DECIMALS,
        MIN_HOLDING_AMOUNT])).2.2.2 "X" (by decide)⟩

/-- Claim C2 (code-bug evaluation): in update_holdings both mutex guards
are taken at the top of the function and dropped only on return, while the
send_alert network call is awaited in between; at a concrete input whose
gain is 200 % the event trace shows the network send strictly inside the
holdings-lock critical section, so the locks ARE held across network I/O. -/
theorem alert_send_awaited_under_locks :
    update_holdings_events true ⟨[("M", ⟨2000000, "M", 2, 1⟩)], []⟩ "M" true 0 3
      = [LockEvent.acquireHoldings, LockEvent.acquireAlerted,
         LockEvent.sendAlertNet, LockEvent.releaseAlerted,
         LockEvent.releaseHoldings] ∧
    lockHeldAcrossNetSend
      (update_holdings_events true ⟨[("M", ⟨2000000, "M", 2, 1⟩)], []⟩
        "M" true 0 3) := by
  have hev : update_holdings_events true ⟨[("M", ⟨2000000, "M", 2, 1⟩)], []⟩
      "M" true 0 3
      = [LockEvent.acquireHoldings, LockEvent.acquireAlerted,
         LockEvent.sendAlertNet, LockEvent.releaseAlerted,
         LockEvent.releaseHoldings] := by
    norm_num [update_holdings_events, update_holdings, hLookup, buyUpdatedHolding,
      TokenHolding.new, check_and_send_alert, TokenHolding.price_change_percentage,
      TokenHolding.avg_price, displayAmount, tokenScale, TOKEN_DECIMALS, satAdd,
      U64_MAX, hInsert, sContains, truncRat_eq_num, i32clamp]
  refine ⟨hev, ?_⟩
  rw [hev]
  exact ⟨[], [LockEvent.acquireAlerted, LockEvent.sendAlertNet,
    LockEvent.releaseAlerted], [], by simp, by simp⟩

/-- Claim C1 (code-bug evaluation): the periodic snapshot task spawned by
start_monitoring prunes a dust position from the shared holdings map, but
because the spawned task was built with a fresh empty alerted_mints set
(wallet_monitor.rs:481) the shared AlertedSet keeps the token's entry:
after the tick the position of "M" is gone while "M" is still marked as
alerted, so the gate never re-arms for a reopened position. -/
theorem periodic_prune_leaves_alerted_stale :
    displayAmount 5000 < (MIN_HOLDING_AMOUNT : ℚ) ∧
    hLookup (periodic_tick ⟨[("M", ⟨5000, "M", 1, 1⟩)], ["M"]⟩).holdings "M"
      = none ∧
    sContains (periodic_tick ⟨[("M", ⟨5000, "M", 1, 1⟩)], ["M"]⟩).alerted "M"
      = true := by
  have hq : displayAmount 5000 < (MIN_HOLDING_AMOUNT : ℚ) := by
    norm_num [displayAmount, tokenScale, TOKEN_DECIMALS, MIN_HOLDING_AMOUNT]
  have hfil : ([("M", (⟨5000, "M", 1, 1⟩ : TokenHolding))].filter
      (fun p => decide (displayAmount p.2.amount < (MIN_HOLDING_AMOUNT : ℚ))))
      = [("M", ⟨5000, "M", 1, 1⟩)] := by
    rw [List.filter_cons_of_pos]
    · rw [List.filter_nil]
    · exact decide_eq_true hq
  refine ⟨hq, ?_, ?_⟩ <;>
    simp [periodic_tick, print_holdings_prune, hfil, hRemove, hLookup, sContains]

/-- Claim C5: the alert gate fires exactly once per open position: an
above-threshold gain with the token absent from the set emits one alert
and inserts the token; while the token is in the set no alert is emitted
and the set is unchanged; at or below a gain of 100 nothing is emitted and
nothing changes; n consecutive above-threshold checks starting armed emit
exactly one alert; and the concrete ledger trace (open, three
above-threshold mark updates, full close, reopen, one more above-threshold
update) produces exactly one alert in its first four operations and
exactly two alerts overall. -/
theorem alert_exactly_once :
    (∀ (mint : String) (h : TokenHolding) (a : AlertedSet),
      100 < h.price_change_percentage → sContains a mint = false →
      (check_and_send_alert true mint h a).emitted = true ∧
      sContains (check_and_send_alert true mint h a).alerted mint = true) ∧
    (∀ (sendOk : Bool) (mint : String) (h : TokenHolding) (a : AlertedSet),
      sContains a mint = true →
      (check_and_send_alert sendOk mint h a).emitted = false ∧
      (check_and_send_alert sendOk mint h a).alerted = a) ∧
    (∀ (sendOk : Bool) (mint : String) (h : TokenHolding) (a : AlertedSet),
      h.price_change_percentage ≤ 100 →
      (check_and_send_alert sendOk mint h a).emitted = false ∧
      (check_and_send_alert sendOk mint h a).alerted = a) ∧
    (∀ (mint : String) (h : TokenHolding) (a : AlertedSet) (n : Nat),
      1 ≤ n → 100 < h.price_change_percentage → sContains a mint = false →
      (iterCheck true mint h n a).2 = 1) ∧
    ((runOps ⟨[], []⟩ (scenarioOps.take 4)).2 = 1 ∧
      (runOps ⟨[], []⟩ scenarioOps).2 = 2) := by
  refine ⟨?_, ?_, ?_, ?_, ?_⟩
  · intro mint h a h100 hnot
    rw [check_armed_above true mint h a h100 hnot]
    exact ⟨rfl, sContains_sInsert_self a mint⟩
  · intro sendOk mint h a hin
    rw [check_in_set sendOk mint h a hin]
    exact ⟨rfl, rfl⟩
  · intro sendOk mint h a hle
    rw [check_below sendOk mint h a hle]
    exact ⟨rfl, rfl⟩
  · intro mint h a n hn h100 hnot
    match n, hn with
    | m + 1, _ =>
      simp [iterCheck, check_armed_above true mint h a h100 hnot,
        iterCheck_in_set mint h m (sInsert a mint) (sContains_sInsert_self a mint)]
  · constructor <;>
      simp [scenarioOps, runOps, List.take, scenStep1, scenStep2, scenStep3,
        scenStep5]

/-- Witness for C5: a position with a 200 % gain whose token is not yet in
the set emits an alert and enters the set. -/
theorem alert_exactly_once_witness :
    (check_and_send_alert true "M" ⟨2000000, "M", 2, 3⟩ []).emitted = true ∧
    sContains (check_and_send_alert true "M" ⟨2000000, "M", 2, 3⟩ []).alerted "M"
      = true :=
  alert_exactly_once.1 "M" ⟨2000000, "M", 2, 3⟩ []
    (by norm_num [TokenHolding.price_change_percentage, TokenHolding.avg_price,
      displayAmount, tokenScale, TOKEN_DECIMALS, truncRat_eq_num, i32clamp])
    rfl

/-- Claim C9: the token enters the AlertedSet only after the notifier call
succeeds: on a failed send the set is unchanged and nothing is emitted,
while the send was attempted and the Err surfaced (then only logged); a
repeat check above threshold attempts the send again; and the holdings
component of update_holdings and update_price is the same whether the send
succeeds or fails — the ledger operation always completes normally and
never propagates the send error. -/
theorem alerted_insert_requires_send_success :
    (∀ (mint : String) (h : TokenHolding) (a : AlertedSet),
      sContains a mint = false →
      (check_and_send_alert false mint h a).alerted = a ∧
      (check_and_send_alert false mint h a).emitted = false ∧
      (100 < h.price_change_percentage →
        (check_and_send_alert false mint h a).attempted = true ∧
        (check_and_send_alert false mint h a).failed = true ∧
        (check_and_send_alert false mint h
          (check_and_send_alert false mint h a).alerted).attempted = true)) ∧
    (∀ (st : LedgerState) (mint : String) (b : Bool) (amt : Nat) (price : ℚ),
      (update_holdings false st mint b amt price).state.holdings
        = (update_holdings true st mint b amt price).state.holdings) ∧
    (∀ (st : LedgerState) (mint : String) (price : ℚ),
      (update_price false st mint price).state.holdings
        = (update_price true st mint price).state.holdings) := by
  refine ⟨?_, ?_, ?_⟩
  · intro mint h a hnot
    by_cases h100 : 100 < h.price_change_percentage
    · rw [check_armed_above false mint h a h100 hnot]
      refine ⟨rfl, rfl, fun _ => ⟨rfl, rfl, ?_⟩⟩
      show (check_and_send_alert false mint h a).attempted = true
      rw [check_armed_above false mint h a h100 hnot]
      rfl
    · have hle : h.price_change_percentage ≤ 100 := Int.not_lt.1 h100
      rw [check_below false mint h a hle]
      exact ⟨rfl, rfl, fun hc => absurd hc h100⟩
  · intro st mint b amt price
    cases b
    · cases hl : hLookup st.holdings mint with
      | none => simp [update_holdings, hl]
      | some old =>
        by_cases hd : (sellUpdatedHolding old amt price).amount < MIN_HOLDING_AMOUNT
        · simp [update_holdings, hl, hd]
        · simp [update_holdings, hl, hd]
    · simp [update_holdings]
  · intro st mint price
    by_cases hp : price = 0
    · simp [update_price, hp]
    · cases hl : hLookup st.holdings mint with
      | none => simp [update_price, hp, hl]
      | some old =>
        by_cases hd : displayAmount old.amount < (MIN_HOLDING_AMOUNT : ℚ)
        · simp [update_price, hp, hl, hd]
        · simp [update_price, hp, hl, hd]

/-- Witness for C9: a failed send on a 200 %-gain position leaves the set
empty, emits nothing, and is marked attempted and failed. -/
theorem alerted_insert_requires_send_success_witness :
    (check_and_send_alert false "M" ⟨2000000, "M", 2, 3⟩ []).alerted = [] ∧
    (check_and_send_alert false "M" ⟨2000000, "M", 2, 3⟩ []).emitted = false ∧
    (check_and_send_alert false "M" ⟨2000000, "M", 2, 3⟩ []).attempted = true ∧
    (check_and_send_alert false "M" ⟨2000000, "M", 2, 3⟩ []).failed = true :=
  ⟨(alerted_insert_requires_send_success.1 "M" ⟨2000000, "M", 2, 3⟩ [] rfl).1,
   (alerted_insert_requires_send_success.1 "M" ⟨2000000, "M", 2, 3⟩ [] rfl).2.1,
   ((alerted_insert_requires_send_success.1 "M" ⟨2000000, "M", 2, 3⟩ [] rfl).2.2
     (by norm_num [TokenHolding.price_change_percentage, TokenHolding.avg_price,
       displayAmount, tokenScale, TOKEN_DECIMALS, truncRat_eq_num, i32clamp])).1,
   ((alerted_insert_requires_send_success.1 "M" ⟨2000000, "M", 2, 3⟩ [] rfl).2.2
     (by norm_num [TokenHolding.price_change_percentage, TokenHolding.avg_price,
       displayAmount, tokenScale, TOKEN_DECIMALS, truncRat_eq_num, i32clamp])).2.1⟩
